import Mathlib

/-!
Shallow embedding of the credibility engine in `credibility_analyzer.py`
(class `CredibilityAnalyzer`).  Python floats are modelled as exact
rationals (`ℚ`), Python ints as `ℤ`, and the pattern dictionary as a
record of optional values (a missing dictionary key is `Option.none`,
read back with the same defaults as Python's `dict.get`).  Python's
built-in `round` (round half to even) is modelled by `pyRound`.
-/

namespace CredibilityAnalyzer

/-- The nine pattern-signal dictionary entries read by the analyzer.
A field holds `Option.none` when the corresponding key is absent from the
Python dictionary; `Dict.get` defaulting is modelled with `Option.getD`. -/
structure PatternSignals where
  sensational_phrases : Option ℚ := Option.none
  excessive_caps : Option ℚ := Option.none
  vague_sources : Option ℚ := Option.none
  conspiracy_framing : Option ℚ := Option.none
  emotional_manipulation : Option ℚ := Option.none
  one_sided : Option ℚ := Option.none
  no_evidence : Option ℚ := Option.none
  extreme_adjectives : Option ℚ := Option.none
  clickbait : Option ℚ := Option.none
deriving DecidableEq

/-- Python's built-in `round` on a real (here rational) argument:
round half to even, returning an integer. -/
def pyRound (q : ℚ) : ℤ :=
  if q - ⌊q⌋ < 1/2 then ⌊q⌋
  else if 1/2 < q - ⌊q⌋ then ⌊q⌋ + 1
  else if ⌊q⌋ % 2 = 0 then ⌊q⌋ else ⌊q⌋ + 1

/-- `CredibilityAnalyzer.calculate_pattern_score` (lines 24-80 of
`credibility_analyzer.py`): extract the nine signals with defaults,
normalize the count-based ones by fixed caps (clamping at 1.0), and take
the fixed weighted sum. -/
def calculate_pattern_score (patterns : PatternSignals) : ℚ :=
  let sensational := patterns.sensational_phrases.getD 0
  let excessive_caps := patterns.excessive_caps.getD 0
  let vague_sources := patterns.vague_sources.getD 0
  let conspiracy := patterns.conspiracy_framing.getD 0
  let emotional := patterns.emotional_manipulation.getD 0
  let one_sided := patterns.one_sided.getD 0
  let no_evidence := patterns.no_evidence.getD 0
  let extreme_adj := patterns.extreme_adjectives.getD 0
  let clickbait := patterns.clickbait.getD 0
  let sensational_norm := min 1 (sensational / 5)
  let vague_sources_norm := min 1 (vague_sources / 3)
  let conspiracy_norm := min 1 (conspiracy / 2)
  let emotional_norm := min 1 (emotional / 4)
  let extreme_adj_norm := min 1 (extreme_adj / 6)
  let clickbait_norm := min 1 (clickbait / 2)
  sensational_norm * 0.15 +
    excessive_caps * 0.10 +
    vague_sources_norm * 0.15 +
    conspiracy_norm * 0.15 +
    emotional_norm * 0.10 +
    one_sided * 0.10 +
    no_evidence * 0.10 +
    extreme_adj_norm * 0.10 +
    clickbait_norm * 0.05

/-- `CredibilityAnalyzer.classify_credibility` (lines 82-135): the
four-way decision ladder over text length, model prediction, model
confidence and the aggregated pattern score. -/
def classify_credibility (text : String) (model_prediction : ℤ)
    (model_confidence : ℚ) (detected_patterns : PatternSignals) : String :=
  if text.length < 50 then "UNVERIFIED"
  else
    let pattern_score := calculate_pattern_score detected_patterns
    if model_prediction = 0 ∧ model_confidence > 0.75 then
      if pattern_score > 0.7 then "FAKE" else "MISLEADING"
    else if model_prediction = 1 ∧ model_confidence > 0.75 then
      if pattern_score < 0.3 then "REAL" else "MISLEADING"
    else if model_confidence < 0.5 then "UNVERIFIED"
    else if pattern_score > 0.5 then "MISLEADING" else "REAL"

/-- `CredibilityAnalyzer.calculate_credibility_score` (lines 137-176):
70/30 blend of the model component and the inverted pattern component,
clamped to [0, 100] and rounded. -/
def calculate_credibility_score (model_confidence : ℚ)
    (model_prediction : ℤ) (pattern_score : ℚ) : ℤ :=
  let model_component :=
    if model_prediction = 1 then model_confidence * 100
    else (1 - model_confidence) * 100
  let pattern_component := (1 - pattern_score) * 100
  let credibility_score := model_component * 0.70 + pattern_component * 0.30
  pyRound (max 0 (min 100 credibility_score))

/-- `CredibilityAnalyzer.determine_risk_level` (lines 178-196). -/
def determine_risk_level (credibility_score : ℤ) : String :=
  if credibility_score ≥ 75 then "Low Risk"
  else if credibility_score ≥ 40 then "Medium Risk"
  else "High Risk"

/-- `CredibilityAnalyzer.calculate_confidence` (lines 198-223): 60/40
weighted average of model confidence and pattern consistency, scaled to
0-100 and rounded (no clamping in the source). -/
def calculate_confidence (model_confidence : ℚ)
    (pattern_consistency : ℚ) : ℤ :=
  let combined_confidence := model_confidence * 0.6 + pattern_consistency * 0.4
  pyRound (combined_confidence * 100)

/-- ASCII lowercasing, modelling Python's `str.lower()` on the fixed
ASCII indicator sentences it is applied to. -/
def strLower (s : String) : String := s.map Char.toLower

/-- Rendering of a rational to two decimal places, modelling the Python
f-string directive `:.2f` applied to `pattern_score`. -/
def format2f (q : ℚ) : String :=
  let n := pyRound (q * 100)
  let sign := if n < 0 then "-" else ""
  let m := n.natAbs
  sign ++ toString (m / 100) ++ "." ++
    (if m % 100 < 10 then "0" else "") ++ toString (m % 100)

/-- Rendering of a pattern-signal value inside an f-string.  The counts
interpolated by the source are integers, printed as Python prints them;
a non-integral rational is rendered as a fraction (the exact float
rendering is immaterial to the properties proved here). -/
def qStr (q : ℚ) : String :=
  if q.den = 1 then toString q.num else toString q.num ++ "/" ++ toString q.den

/-- `CredibilityAnalyzer.extract_key_indicators` (lines 225-275): nine
fixed threshold rules, each appending one fixed sentence, with a fixed
two-sentence fallback when none fires. -/
def extract_key_indicators (patterns : PatternSignals) (text : String) :
    List String :=
  let indicators :=
    (if patterns.sensational_phrases.getD 0 > 3 then
      ["High use of sensational language"] else []) ++
    (if patterns.excessive_caps.getD 0 > 0.1 then
      ["Excessive capitalization detected"] else []) ++
    (if patterns.vague_sources.getD 0 > 2 then
      ["Multiple vague source references"] else []) ++
    (if patterns.conspiracy_framing.getD 0 > 0 then
      ["Conspiracy framing language present"] else []) ++
    (if patterns.emotional_manipulation.getD 0 > 2 then
      ["Emotional manipulation tactics detected"] else []) ++
    (if patterns.one_sided.getD 0 > 0.7 then
      ["One-sided narrative without counterpoints"] else []) ++
    (if patterns.no_evidence.getD 0 > 0.7 then
      ["Lack of verifiable evidence or data"] else []) ++
    (if patterns.extreme_adjectives.getD 0 > 5 then
      ["Overuse of extreme adjectives"] else []) ++
    (if patterns.clickbait.getD 0 > 0 then
      ["Clickbait patterns in text"] else [])
  if indicators = [] then
    ["Balanced language and structure", "Appropriate use of sources"]
  else indicators

/-- `CredibilityAnalyzer.generate_analysis_summary` (lines 277-328). -/
def generate_analysis_summary (classification : String)
    (credibility_score : ℤ) (key_indicators : List String) : String :=
  let summary :=
    if classification = "REAL" then
      "This article appears credible with a credibility score of " ++
        toString credibility_score ++ "/100. "
    else if classification = "FAKE" then
      "This article shows strong indicators of misinformation with a credibility score of " ++
        toString credibility_score ++ "/100. "
    else if classification = "MISLEADING" then
      "This article contains misleading elements with a credibility score of " ++
        toString credibility_score ++ "/100. "
    else
      "This article cannot be reliably assessed with a credibility score of " ++
        toString credibility_score ++ "/100. "
  let summary :=
    if key_indicators.length > 0 then
      let primary_indicators := key_indicators.take 3
      if primary_indicators.length = 1 then
        summary ++ "The primary factor is: " ++
          strLower (primary_indicators.getD 0 "") ++ ". "
      else if primary_indicators.length = 2 then
        summary ++ "Key factors include: " ++
          strLower (primary_indicators.getD 0 "") ++ " and " ++
          strLower (primary_indicators.getD 1 "") ++ ". "
      else
        summary ++ "Key factors include: " ++
          strLower (primary_indicators.getD 0 "") ++ ", " ++
          strLower (primary_indicators.getD 1 "") ++ ", and " ++
          strLower (primary_indicators.getD 2 "") ++ ". "
    else summary
  if classification = "REAL" then
    summary ++ "The content demonstrates balanced reporting and appropriate sourcing."
  else if classification = "FAKE" then
    summary ++ "Multiple red flags suggest this content should be treated with extreme skepticism."
  else if classification = "MISLEADING" then
    summary ++ "While some elements may be factual, the overall presentation raises concerns."
  else
    summary ++ "Additional information would be needed for a more definitive assessment."

/-- `CredibilityAnalyzer.generate_recommended_action` (lines 330-348). -/
def generate_recommended_action (risk_level : String) : String :=
  if risk_level = "High Risk" then
    "Exercise extreme caution with this content. Verify claims through multiple independent and reputable sources before accepting or sharing. Consider this content potentially misleading or false."
  else if risk_level = "Medium Risk" then
    "Approach this content with caution. Cross-reference key claims with other credible sources and look for additional evidence before drawing conclusions or sharing."
  else
    "This content appears credible based on linguistic analysis. However, always maintain critical thinking and verify important claims through additional sources when making significant decisions."

/-- Comma-joined enumeration of the findings inside
`generate_explanation`, mirroring the `for i, indicator in enumerate`
loop: first item plain, last item preceded by ", and", others by ", ". -/
def findingsFrom (total : Nat) : Nat → List String → String
  | _, [] => ""
  | i, indicator :: rest =>
    (if i = 0 then strLower indicator
     else if i = total - 1 then ", and " ++ strLower indicator
     else ", " ++ strLower indicator) ++ findingsFrom total (i + 1) rest

/-- `CredibilityAnalyzer.generate_explanation` (lines 350-419). -/
def generate_explanation (classification : String) (credibility_score : ℤ)
    (patterns : PatternSignals) (indicators : List String) : String :=
  let explanation :=
    "The article received a classification of '" ++ classification ++
      "' with a credibility score of " ++ toString credibility_score ++ "/100. "
  let explanation := explanation ++
    (if classification = "REAL" then
      "This classification indicates that the linguistic patterns and content structure align with credible journalism. "
    else if classification = "FAKE" then
      "This classification indicates strong linguistic patterns associated with misinformation and fabricated content. "
    else if classification = "MISLEADING" then
      "This classification indicates a mix of credible and suspicious elements, suggesting partial truth with potential distortion. "
    else
      "This classification indicates insufficient information or ambiguous patterns that prevent a definitive assessment. ")
  let pattern_score := calculate_pattern_score patterns
  let explanation := explanation ++
    "The overall pattern analysis score is " ++ format2f pattern_score ++
    " (on a scale where higher values indicate more suspicious patterns). "
  let explanation :=
    if indicators.length > 0 then
      explanation ++ "Specific findings include: " ++
        findingsFrom indicators.length 0 indicators ++ ". "
    else explanation
  let notable_patterns :=
    (if patterns.sensational_phrases.getD 0 > 3 then
      ["sensational language (" ++ qStr (patterns.sensational_phrases.getD 0) ++ " instances)"] else []) ++
    (if patterns.vague_sources.getD 0 > 2 then
      ["vague source references (" ++ qStr (patterns.vague_sources.getD 0) ++ " instances)"] else []) ++
    (if patterns.emotional_manipulation.getD 0 > 2 then
      ["emotional manipulation tactics (" ++ qStr (patterns.emotional_manipulation.getD 0) ++ " instances)"] else []) ++
    (if patterns.conspiracy_framing.getD 0 > 0 then
      ["conspiracy framing language (" ++ qStr (patterns.conspiracy_framing.getD 0) ++ " instances)"] else [])
  let explanation :=
    if notable_patterns ≠ [] then
      explanation ++ "Notable patterns detected: " ++
        String.intercalate ", " notable_patterns ++ ". "
    else explanation
  explanation ++
    "This assessment is based exclusively on linguistic and structural analysis of the provided text, without external fact-checking or knowledge injection."

/-- The nine raw quotients built inside `analyze` (lines 520-530) to
measure pattern consistency. -/
def pattern_values (p : PatternSignals) : List ℚ :=
  [p.sensational_phrases.getD 0 / 5,
   p.excessive_caps.getD 0,
   p.vague_sources.getD 0 / 3,
   p.conspiracy_framing.getD 0 / 2,
   p.emotional_manipulation.getD 0 / 4,
   p.one_sided.getD 0,
   p.no_evidence.getD 0,
   p.extreme_adjectives.getD 0 / 6,
   p.clickbait.getD 0 / 2]

/-- The comprehension `[min(1.0, v) for v in pattern_values]`
(line 532 of `analyze`). -/
def normalized_values (p : PatternSignals) : List ℚ :=
  (pattern_values p).map (fun v => min 1 v)

/-- `mean_val` as computed in `analyze` (line 534). -/
def pattern_mean (p : PatternSignals) : ℚ :=
  (normalized_values p).sum / ((normalized_values p).length : ℚ)

/-- `variance` as computed in `analyze` (line 535): population variance
of the nine normalized values. -/
def pattern_variance (p : PatternSignals) : ℚ :=
  ((normalized_values p).map (fun v => (v - pattern_mean p) ^ 2)).sum /
    ((normalized_values p).length : ℚ)

/-- `pattern_consistency` as computed in `analyze` (line 536). -/
def pattern_consistency (p : PatternSignals) : ℚ :=
  1 - min 1 (pattern_variance p * 2)

/-- Python's `str.strip()`: remove whitespace from both ends of the
string. -/
def pyStrip (s : String) : String :=
  String.mk
    (((s.data.dropWhile Char.isWhitespace).reverse.dropWhile
        Char.isWhitespace).reverse)

/-- The external collaborators consumed by `analyze`, modelled as opaque
function parameters.  `predict` and `confidence` bundle the composite
`model.predict(vectorizer.transform([clean_text_for_model(text)]))` call
and the `predict_proba` / `decision_function` / neutral-0.5 confidence
ladder (lines 484-505); `detect_patterns`, `analyze_emotional_tone` and
`identify_suspicious_claims` are the pattern detector, emotional
analyzer and claim highlighter interfaces. -/
structure Collaborators where
  predict : String → ℤ
  confidence : String → ℚ
  detect_patterns : String → PatternSignals
  analyze_emotional_tone : PatternSignals → String → String
  identify_suspicious_claims : String → List String

/-- The dictionary returned by `analyze`.  The last three fields are
absent (`Option.none`) in the two degraded early-return dictionaries and
present on the full path. -/
structure AnalysisOutput where
  classification : String
  credibility_score : ℤ
  risk_level : String
  confidence : ℤ
  analysis_summary : String
  key_indicators : List String
  emotional_tone : String
  suspicious_claims : List String
  recommended_action : String
  explanation : String
  model_prediction : Option ℤ
  pattern_score : Option ℚ
  patterns : Option PatternSignals
deriving DecidableEq

/-- The early-return dictionary of `analyze` for empty or non-string
input (lines 455-467). -/
def degraded_no_text : AnalysisOutput where
  classification := "UNVERIFIED"
  credibility_score := 0
  risk_level := "High Risk"
  confidence := 0
  analysis_summary := "No text provided for analysis."
  key_indicators := ["Insufficient input"]
  emotional_tone := "N/A"
  suspicious_claims := []
  recommended_action := "Please provide article text for analysis."
  explanation := "INSUFFICIENT INFORMATION"
  model_prediction := Option.none
  pattern_score := Option.none
  patterns := Option.none

/-- The early-return dictionary of `analyze` for text whose stripped
length is below 50 (lines 469-482). -/
def degraded_short_text : AnalysisOutput where
  classification := "UNVERIFIED"
  credibility_score := 0
  risk_level := "High Risk"
  confidence := 0
  analysis_summary := "The provided text is too short for reliable analysis."
  key_indicators := ["Insufficient text length"]
  emotional_tone := "N/A"
  suspicious_claims := []
  recommended_action := "Please provide more substantial article text for analysis."
  explanation := "INSUFFICIENT INFORMATION"
  model_prediction := Option.none
  pattern_score := Option.none
  patterns := Option.none

/-- `CredibilityAnalyzer.analyze` (lines 421-591).  The `text` argument
is `Option.none` for a Python non-string (or `None`) input, so that the
guard `not text or not isinstance(text, str)` becomes the first two
branches below; `str.strip` is modelled by `pyStrip`. -/
def analyze (collab : Collaborators) (text : Option String) :
    AnalysisOutput :=
  match text with
  | Option.none => degraded_no_text
  | Option.some t =>
    if t = "" then degraded_no_text
    else if (pyStrip t).length < 50 then degraded_short_text
    else
      let model_prediction := collab.predict t
      let model_confidence := collab.confidence t
      let detected_patterns := collab.detect_patterns t
      let pattern_score := calculate_pattern_score detected_patterns
      let consistency := pattern_consistency detected_patterns
      let classification :=
        classify_credibility t model_prediction model_confidence detected_patterns
      let credibility_score :=
        calculate_credibility_score model_confidence model_prediction pattern_score
      let risk_level := determine_risk_level credibility_score
      let confidence := calculate_confidence model_confidence consistency
      let key_indicators := extract_key_indicators detected_patterns t
      let emotional_tone := collab.analyze_emotional_tone detected_patterns t
      let suspicious_claims := collab.identify_suspicious_claims t
      let analysis_summary :=
        generate_analysis_summary classification credibility_score key_indicators
      let recommended_action := generate_recommended_action risk_level
      let explanation :=
        generate_explanation classification credibility_score detected_patterns
          key_indicators
      { classification := classification
        credibility_score := credibility_score
        risk_level := risk_level
        confidence := confidence
        analysis_summary := analysis_summary
        key_indicators := key_indicators
        emotional_tone := emotional_tone
        suspicious_claims := suspicious_claims
        recommended_action := recommended_action
        explanation := explanation
        model_prediction := Option.some model_prediction
        pattern_score := Option.some pattern_score
        patterns := Option.some detected_patterns }

/-- Universe of Python values appearing in the result dictionary handed
to `format_json_output`: strings, ints, floats, lists and `None`. -/
inductive PyVal where
  | str (s : String)
  | int (n : ℤ)
  | float (q : ℚ)
  | list (xs : List PyVal)
  | none

/-- The three `expected_type` entries of the `required_fields` table in
`format_json_output` (lines 610-621). -/
inductive PyType where
  | str
  | int
  | list
deriving DecidableEq

/-- Python's `isinstance(value, expected_type)` for the types used in the
`required_fields` table. -/
def typeMatches : PyVal → PyType → Bool
  | .str _, .str => true
  | .int _, .int => true
  | .list _, .list => true
  | _, _ => false

/-- Structured rendering of the `ValueError`s raised by
`format_json_output`; each constructor carries the offending field or
value named in the corresponding Python message. -/
inductive ValidationError where
  | missingFields (fields : List String)
  | wrongType (field : String) (expected : PyType)
  | invalidClassification (value : String)
  | outOfRange (field : String) (value : ℤ)
  | invalidRiskLevel (value : String)
  | nonStringItems (field : String)
deriving DecidableEq

/-- The `required_fields` dictionary of `format_json_output`
(lines 610-621), in its insertion order. -/
def required_fields : List (String × PyType) :=
  [("classification", .str),
   ("credibility_score", .int),
   ("risk_level", .str),
   ("confidence", .int),
   ("analysis_summary", .str),
   ("key_indicators", .list),
   ("emotional_tone", .str),
   ("suspicious_claims", .list),
   ("recommended_action", .str),
   ("explanation", .str)]

/-- Lookup in a Python dictionary modelled as an association list
(first binding wins, matching unique-key dictionaries). -/
def dictGet (d : List (String × PyVal)) (k : String) : Option PyVal :=
  (d.find? (fun kv => kv.1 = k)).map (fun kv => kv.2)

/-- Checks `isinstance(item, str)` for the items of the two list
fields. -/
def pyIsStr : PyVal → Bool
  | .str _ => true
  | _ => false

/-- The body of the validation loop of `format_json_output` for a single
field (lines 635-680): type check followed by the field-specific value
checks, returning the first error raised, if any. -/
def validateOne (field : String) (expected : PyType) (value : PyVal) :
    Option ValidationError :=
  if typeMatches value expected = false then
    Option.some (.wrongType field expected)
  else if field = "classification" then
    match value with
    | .str s =>
      if s = "REAL" ∨ s = "FAKE" ∨ s = "MISLEADING" ∨ s = "UNVERIFIED" then
        Option.none
      else Option.some (.invalidClassification s)
    | _ => Option.none
  else if field = "credibility_score" then
    match value with
    | .int n =>
      if 0 ≤ n ∧ n ≤ 100 then Option.none
      else Option.some (.outOfRange "credibility_score" n)
    | _ => Option.none
  else if field = "confidence" then
    match value with
    | .int n =>
      if 0 ≤ n ∧ n ≤ 100 then Option.none
      else Option.some (.outOfRange "confidence" n)
    | _ => Option.none
  else if field = "risk_level" then
    match value with
    | .str s =>
      if s = "Low Risk" ∨ s = "Medium Risk" ∨ s = "High Risk" then Option.none
      else Option.some (.invalidRiskLevel s)
    | _ => Option.none
  else if field = "key_indicators" ∨ field = "suspicious_claims" then
    match value with
    | .list xs =>
      if xs.all pyIsStr then Option.none
      else Option.some (.nonStringItems field)
    | _ => Option.none
  else Option.none

/-- The validation loop of `format_json_output`: walks the required
fields in order, raising the first per-field error and otherwise
appending the validated binding to `formatted_output`. -/
def runValidation (d : List (String × PyVal)) :
    List (String × PyType) → Except ValidationError (List (String × PyVal))
  | [] => .ok []
  | (field, ty) :: rest =>
    let value := (dictGet d field).getD PyVal.none
    match validateOne field ty value with
    | Option.some e => .error e
    | Option.none =>
      match runValidation d rest with
      | .error e => .error e
      | .ok out => .ok ((field, value) :: out)

/-- `CredibilityAnalyzer.format_json_output` (lines 593-684): first
collects every missing required field, then validates type and value of
each required field in order, building the formatted output. -/
def format_json_output (analysis_result : List (String × PyVal)) :
    Except ValidationError (List (String × PyVal)) :=
  let missing_fields :=
    required_fields.filterMap
      (fun p => if (dictGet analysis_result p.1).isNone then
        Option.some p.1 else Option.none)
  if missing_fields ≠ [] then .error (.missingFields missing_fields)
  else runValidation analysis_result required_fields

example : calculate_pattern_score {} = 0 := by
  norm_num [calculate_pattern_score, min_def]
example : calculate_pattern_score { one_sided := some 20 } = 2 := by
  norm_num [calculate_pattern_score, min_def]
example : classify_credibility "" 0 1 {} = "UNVERIFIED" := by
  norm_num [classify_credibility]
example : determine_risk_level 40 = "Medium Risk" := by
  norm_num [determine_risk_level]
example : pyRound (5/2) = 2 := by norm_num [pyRound]
example : pyRound (3/2) = 2 := by norm_num [pyRound]
example : pyRound (1/2) = 0 := by norm_num [pyRound]
example : pyRound (-1/2) = 0 := by norm_num [pyRound]
example : calculate_credibility_score 0.9 1 0.1 = 90 := by
  norm_num [calculate_credibility_score, pyRound, min_def, max_def]
example : calculate_confidence 0 (1/2) = 20 := by
  norm_num [calculate_confidence, pyRound]

lemma pyRound_cases (q : ℚ) : pyRound q = ⌊q⌋ ∨ pyRound q = ⌊q⌋ + 1 := by
  unfold pyRound
  split
  · exact Or.inl rfl
  split
  · exact Or.inr rfl
  split
  · exact Or.inl rfl
  · exact Or.inr rfl

lemma le_pyRound (n : ℤ) (q : ℚ) (h : (n : ℚ) ≤ q) : n ≤ pyRound q := by
  have hf : n ≤ ⌊q⌋ := Int.le_floor.mpr h
  rcases pyRound_cases q with h1 | h1 <;> omega

lemma pyRound_le (n : ℤ) (q : ℚ) (h : q ≤ (n : ℚ)) : pyRound q ≤ n := by
  have hf : ⌊q⌋ ≤ n := by
    have h2 := Int.floor_le_floor h
    simpa using h2
  unfold pyRound
  split
  · exact hf
  rename_i hr
  push_neg at hr
  have hq : (⌊q⌋ : ℚ) + 1/2 ≤ q := by linarith
  have hlt : ⌊q⌋ < n := by
    by_contra hc
    push_neg at hc
    have heq : ⌊q⌋ = n := le_antisymm hf hc
    rw [heq] at hq
    linarith
  split
  · omega
  split
  · omega
  · omega

lemma pyRound_clamp_nonneg (x : ℚ) : 0 ≤ pyRound (max 0 (min 100 x)) := by
  have h : ((0 : ℤ) : ℚ) ≤ max 0 (min 100 x) := by
    simpa using le_max_left (0 : ℚ) (min 100 x)
  exact le_pyRound 0 _ h

lemma pyRound_clamp_le (x : ℚ) : pyRound (max 0 (min 100 x)) ≤ 100 := by
  have h : max 0 (min 100 x) ≤ ((100 : ℤ) : ℚ) := by
    have h1 : min 100 x ≤ (100 : ℚ) := min_le_left _ _
    have h2 : (0 : ℚ) ≤ 100 := by norm_num
    simpa using max_le h2 h1
  exact pyRound_le 100 _ h

/-- C3: for `model_confidence` in [0,1], `model_prediction` in {0,1} and
`pattern_score` in [0,1], `calculate_credibility_score` returns the
round of the clamp to [0,100] of `0.70 * m + 0.30 * (1 - pattern_score) * 100`
with `m = model_confidence * 100` for prediction 1 and
`m = (1 - model_confidence) * 100` for prediction 0, and the result is an
integer in [0, 100]. -/
theorem claim_C3 (model_confidence : ℚ) (model_prediction : ℤ)
    (pattern_score : ℚ)
    (hmc0 : 0 ≤ model_confidence) (hmc1 : model_confidence ≤ 1)
    (hmp : model_prediction = 0 ∨ model_prediction = 1)
    (hps0 : 0 ≤ pattern_score) (hps1 : pattern_score ≤ 1) :
    calculate_credibility_score model_confidence model_prediction pattern_score =
      pyRound (max 0 (min 100
        (0.70 * (if model_prediction = 1 then model_confidence * 100
                 else (1 - model_confidence) * 100) +
         0.30 * ((1 - pattern_score) * 100)))) ∧
    0 ≤ calculate_credibility_score model_confidence model_prediction pattern_score ∧
    calculate_credibility_score model_confidence model_prediction pattern_score ≤ 100 := by
  refine ⟨?_, ?_, ?_⟩
  · simp only [calculate_credibility_score]
    congr 1
    rcases eq_or_ne model_prediction 1 with h | h <;> simp [h] <;> ring_nf
  · exact pyRound_clamp_nonneg _
  · exact pyRound_clamp_le _

theorem claim_C3_witness :
    ((0 : ℚ) ≤ 0.9 ∧ (0.9 : ℚ) ≤ 1 ∧ ((1 : ℤ) = 0 ∨ (1 : ℤ) = 1) ∧
      (0 : ℚ) ≤ 0.1 ∧ (0.1 : ℚ) ≤ 1) ∧
    (calculate_credibility_score 0.9 1 0.1 =
      pyRound (max 0 (min 100
        (0.70 * (if (1 : ℤ) = 1 then (0.9 : ℚ) * 100 else (1 - 0.9) * 100) +
         0.30 * ((1 - 0.1) * 100)))) ∧
     0 ≤ calculate_credibility_score 0.9 1 0.1 ∧
     calculate_credibility_score 0.9 1 0.1 ≤ 100) :=
  ⟨by norm_num,
   claim_C3 0.9 1 0.1 (by norm_num) (by norm_num) (Or.inr rfl)
     (by norm_num) (by norm_num)⟩

/-- Pattern-score formula exactly as claim C4 states it: each count
signal divided by its saturation cap and clamped to at most 1, the ratio
signals passed through unchanged, combined with the fixed weights
0.15/0.10/0.15/0.15/0.10/0.10/0.10/0.10/0.05. -/
def patternScoreSpec (sensational excessive_caps vague_sources conspiracy
    emotional one_sided no_evidence extreme_adj clickbait : ℚ) : ℚ :=
  min 1 (sensational / 5) * 0.15 +
    excessive_caps * 0.10 +
    min 1 (vague_sources / 3) * 0.15 +
    min 1 (conspiracy / 2) * 0.15 +
    min 1 (emotional / 4) * 0.10 +
    one_sided * 0.10 +
    no_evidence * 0.10 +
    min 1 (extreme_adj / 6) * 0.10 +
    min 1 (clickbait / 2) * 0.05

/-- C4: for every pattern mapping, `calculate_pattern_score` equals the
fixed convex combination of the nine normalized signals described by the
claim, with each missing key read back as 0 (the `Option.getD 0`
defaults below), and no error is ever raised (the function is total). -/
theorem claim_C4 (p : PatternSignals) :
    calculate_pattern_score p =
      patternScoreSpec (p.sensational_phrases.getD 0) (p.excessive_caps.getD 0)
        (p.vague_sources.getD 0) (p.conspiracy_framing.getD 0)
        (p.emotional_manipulation.getD 0) (p.one_sided.getD 0)
        (p.no_evidence.getD 0) (p.extreme_adjectives.getD 0)
        (p.clickbait.getD 0) := rfl

lemma min_one_div_lt (c k : ℕ) (hk : 0 < k) (h : c < k) :
    min 1 ((c : ℚ) / k) < min 1 (((c : ℚ) + 1) / k) := by
  have hkq : (0 : ℚ) < k := by exact_mod_cast hk
  have hsucc : (c : ℚ) + 1 ≤ k := by exact_mod_cast h
  have h1 : ((c : ℚ) + 1) / k ≤ 1 := by
    rw [div_le_one hkq]
    exact hsucc
  have h0 : (c : ℚ) / k < ((c : ℚ) + 1) / k := by
    apply (div_lt_div_right hkq).mpr
    linarith
  rw [min_eq_right (le_of_lt (lt_of_lt_of_le h0 h1)), min_eq_right h1]
  exact h0

lemma min_one_div_sat (c k : ℕ) (hk : 0 < k) (h : k ≤ c) :
    min 1 (((c : ℚ) + 1) / k) = min 1 ((c : ℚ) / k) := by
  have hkq : (0 : ℚ) < k := by exact_mod_cast hk
  have hc : (k : ℚ) ≤ c := by exact_mod_cast h
  have h1 : (1 : ℚ) ≤ (c : ℚ) / k := by
    rw [le_div_iff hkq]
    linarith
  have h2 : (1 : ℚ) ≤ ((c : ℚ) + 1) / k := by
    rw [le_div_iff hkq]
    linarith
  rw [min_eq_left h1, min_eq_left h2]

/-- C7: holding all other signals fixed, increasing any single
count-type signal by one strictly increases `calculate_pattern_score`
while the value is below the saturation cap (5, 3, 2, 4, 6, 2), and
leaves the score unchanged at or beyond the cap. -/
theorem claim_C7 :
    ((∀ (p : PatternSignals) (c : ℕ), c < 5 →
      calculate_pattern_score { p with sensational_phrases := Option.some ((c : ℚ) + 1) } >
        calculate_pattern_score { p with sensational_phrases := Option.some (c : ℚ) }) ∧
     (∀ (p : PatternSignals) (c : ℕ), 5 ≤ c →
      calculate_pattern_score { p with sensational_phrases := Option.some ((c : ℚ) + 1) } =
        calculate_pattern_score { p with sensational_phrases := Option.some (c : ℚ) })) ∧
    ((∀ (p : PatternSignals) (c : ℕ), c < 3 →
      calculate_pattern_score { p with vague_sources := Option.some ((c : ℚ) + 1) } >
        calculate_pattern_score { p with vague_sources := Option.some (c : ℚ) }) ∧
     (∀ (p : PatternSignals) (c : ℕ), 3 ≤ c →
      calculate_pattern_score { p with vague_sources := Option.some ((c : ℚ) + 1) } =
        calculate_pattern_score { p with vague_sources := Option.some (c : ℚ) })) ∧
    ((∀ (p : PatternSignals) (c : ℕ), c < 2 →
      calculate_pattern_score { p with conspiracy_framing := Option.some ((c : ℚ) + 1) } >
        calculate_pattern_score { p with conspiracy_framing := Option.some (c : ℚ) }) ∧
     (∀ (p : PatternSignals) (c : ℕ), 2 ≤ c →
      calculate_pattern_score { p with conspiracy_framing := Option.some ((c : ℚ) + 1) } =
        calculate_pattern_score { p with conspiracy_framing := Option.some (c : ℚ) })) ∧
    ((∀ (p : PatternSignals) (c : ℕ), c < 4 →
      calculate_pattern_score { p with emotional_manipulation := Option.some ((c : ℚ) + 1) } >
        calculate_pattern_score { p with emotional_manipulation := Option.some (c : ℚ) }) ∧
     (∀ (p : PatternSignals) (c : ℕ), 4 ≤ c →
      calculate_pattern_score { p with emotional_manipulation := Option.some ((c : ℚ) + 1) } =
        calculate_pattern_score { p with emotional_manipulation := Option.some (c : ℚ) })) ∧
    ((∀ (p : PatternSignals) (c : ℕ), c < 6 →
      calculate_pattern_score { p with extreme_adjectives := Option.some ((c : ℚ) + 1) } >
        calculate_pattern_score { p with extreme_adjectives := Option.some (c : ℚ) }) ∧
     (∀ (p : PatternSignals) (c : ℕ), 6 ≤ c →
      calculate_pattern_score { p with extreme_adjectives := Option.some ((c : ℚ) + 1) } =
        calculate_pattern_score { p with extreme_adjectives := Option.some (c : ℚ) })) ∧
    ((∀ (p : PatternSignals) (c : ℕ), c < 2 →
      calculate_pattern_score { p with clickbait := Option.some ((c : ℚ) + 1) } >
        calculate_pattern_score { p with clickbait := Option.some (c : ℚ) }) ∧
     (∀ (p : PatternSignals) (c : ℕ), 2 ≤ c →
      calculate_pattern_score { p with clickbait := Option.some ((c : ℚ) + 1) } =
        calculate_pattern_score { p with clickbait := Option.some (c : ℚ) })) := by
  refine ⟨⟨?_, ?_⟩, ⟨?_, ?_⟩, ⟨?_, ?_⟩, ⟨?_, ?_⟩, ⟨?_, ?_⟩, ⟨?_, ?_⟩⟩ <;>
    intro p c h <;>
    simp only [calculate_pattern_score, Option.getD_some]
  · have key := min_one_div_lt c 5 (by norm_num) h
    push_cast at key
    linarith
  · have key := min_one_div_sat c 5 (by norm_num) h
    push_cast at key
    linarith
  · have key := min_one_div_lt c 3 (by norm_num) h
    push_cast at key
    linarith
  · have key := min_one_div_sat c 3 (by norm_num) h
    push_cast at key
    linarith
  · have key := min_one_div_lt c 2 (by norm_num) h
    push_cast at key
    linarith
  · have key := min_one_div_sat c 2 (by norm_num) h
    push_cast at key
    linarith
  · have key := min_one_div_lt c 4 (by norm_num) h
    push_cast at key
    linarith
  · have key := min_one_div_sat c 4 (by norm_num) h
    push_cast at key
    linarith
  · have key := min_one_div_lt c 6 (by norm_num) h
    push_cast at key
    linarith
  · have key := min_one_div_sat c 6 (by norm_num) h
    push_cast at key
    linarith
  · have key := min_one_div_lt c 2 (by norm_num) h
    push_cast at key
    linarith
  · have key := min_one_div_sat c 2 (by norm_num) h
    push_cast at key
    linarith

/-- An empty pattern mapping: every dictionary key absent. -/
def emptySignals : PatternSignals := {}

theorem claim_C7_witness :
    (0 : ℕ) < 5 ∧
    calculate_pattern_score
        { emptySignals with sensational_phrases := Option.some (((0 : ℕ) : ℚ) + 1) } >
      calculate_pattern_score
        { emptySignals with sensational_phrases := Option.some ((0 : ℕ) : ℚ) } :=
  ⟨by norm_num, claim_C7.1.1 emptySignals 0 (by norm_num)⟩

/-- The nine threshold rules of `extract_key_indicators` in their fixed
declaration order, as claim C8 lists them. -/
def indicatorRules (p : PatternSignals) : List String :=
  (if p.sensational_phrases.getD 0 > 3 then
    ["High use of sensational language"] else []) ++
  (if p.excessive_caps.getD 0 > 0.1 then
    ["Excessive capitalization detected"] else []) ++
  (if p.vague_sources.getD 0 > 2 then
    ["Multiple vague source references"] else []) ++
  (if p.conspiracy_framing.getD 0 > 0 then
    ["Conspiracy framing language present"] else []) ++
  (if p.emotional_manipulation.getD 0 > 2 then
    ["Emotional manipulation tactics detected"] else []) ++
  (if p.one_sided.getD 0 > 0.7 then
    ["One-sided narrative without counterpoints"] else []) ++
  (if p.no_evidence.getD 0 > 0.7 then
    ["Lack of verifiable evidence or data"] else []) ++
  (if p.extreme_adjectives.getD 0 > 5 then
    ["Overuse of extreme adjectives"] else []) ++
  (if p.clickbait.getD 0 > 0 then
    ["Clickbait patterns in text"] else [])

/-- C8: `extract_key_indicators` returns the sentences of the fired
threshold rules in declaration order, falls back to exactly the two
fixed balanced/appropriate sentences when no rule fires, and always
returns at least one string. -/
theorem claim_C8 (p : PatternSignals) (text : String) :
    extract_key_indicators p text =
      (if indicatorRules p = [] then
        ["Balanced language and structure", "Appropriate use of sources"]
      else indicatorRules p) ∧
    1 ≤ (extract_key_indicators p text).length := by
  have heq : extract_key_indicators p text =
      (if indicatorRules p = [] then
        ["Balanced language and structure", "Appropriate use of sources"]
      else indicatorRules p) := rfl
  refine ⟨heq, ?_⟩
  rw [heq]
  split
  · simp
  · rename_i h
    exact List.length_pos.mpr h

/-- C1: `classify_credibility` is the total first-match-wins decision
table of the claim: short text yields UNVERIFIED; a confident fake
prediction yields FAKE above pattern score 0.7 and MISLEADING otherwise;
a confident real prediction yields REAL below 0.3 and MISLEADING
otherwise; low confidence yields UNVERIFIED; the medium band yields
MISLEADING above 0.5 and REAL otherwise; and the result is always one of
the four labels. -/
theorem claim_C1 (text : String) (model_prediction : ℤ)
    (model_confidence : ℚ) (p : PatternSignals)
    (hmp : model_prediction = 0 ∨ model_prediction = 1)
    (hmc0 : 0 ≤ model_confidence) (hmc1 : model_confidence ≤ 1) :
    (classify_credibility text model_prediction model_confidence p = "REAL" ∨
     classify_credibility text model_prediction model_confidence p = "FAKE" ∨
     classify_credibility text model_prediction model_confidence p = "MISLEADING" ∨
     classify_credibility text model_prediction model_confidence p = "UNVERIFIED") ∧
    (text.length < 50 →
      classify_credibility text model_prediction model_confidence p = "UNVERIFIED") ∧
    (¬ text.length < 50 →
      (model_prediction = 0 → model_confidence > 0.75 →
        classify_credibility text model_prediction model_confidence p =
          if calculate_pattern_score p > 0.7 then "FAKE" else "MISLEADING") ∧
      (model_prediction = 1 → model_confidence > 0.75 →
        classify_credibility text model_prediction model_confidence p =
          if calculate_pattern_score p < 0.3 then "REAL" else "MISLEADING") ∧
      (model_confidence < 0.5 →
        classify_credibility text model_prediction model_confidence p = "UNVERIFIED") ∧
      (¬ model_confidence < 0.5 → ¬ model_confidence > 0.75 →
        classify_credibility text model_prediction model_confidence p =
          if calculate_pattern_score p > 0.5 then "MISLEADING" else "REAL")) := by
  refine ⟨?_, ?_, ?_⟩
  · simp only [classify_credibility]
    split_ifs <;> tauto
  · intro h
    simp only [classify_credibility, if_pos h]
  · intro h
    refine ⟨?_, ?_, ?_, ?_⟩
    · intro h0 hc
      simp only [classify_credibility, if_neg h, if_pos (And.intro h0 hc)]
    · intro h1 hc
      have hng : ¬ (model_prediction = 0 ∧ model_confidence > 0.75) := by
        rintro ⟨h0, -⟩
        omega
      simp only [classify_credibility, if_neg h, if_neg hng,
        if_pos (And.intro h1 hc)]
    · intro hlow
      have hng0 : ¬ (model_prediction = 0 ∧ model_confidence > 0.75) := by
        rintro ⟨-, hc⟩
        linarith
      have hng1 : ¬ (model_prediction = 1 ∧ model_confidence > 0.75) := by
        rintro ⟨-, hc⟩
        linarith
      simp only [classify_credibility, if_neg h, if_neg hng0, if_neg hng1,
        if_pos hlow]
    · intro hnl hnh
      have hng0 : ¬ (model_prediction = 0 ∧ model_confidence > 0.75) := by
        rintro ⟨-, hc⟩
        exact hnh hc
      have hng1 : ¬ (model_prediction = 1 ∧ model_confidence > 0.75) := by
        rintro ⟨-, hc⟩
        exact hnh hc
      simp only [classify_credibility, if_neg h, if_neg hng0, if_neg hng1,
        if_neg hnl]

/-- A 58-character text used to exercise the non-short branch. -/
def longText : String :=
  "0123456789012345678901234567890123456789012345678901234567"

theorem claim_C1_witness :
    (((0 : ℤ) = 0 ∨ (0 : ℤ) = 1) ∧ (0 : ℚ) ≤ 0.9 ∧ (0.9 : ℚ) ≤ 1 ∧
      ¬ longText.length < 50 ∧ (0 : ℤ) = 0 ∧ (0.9 : ℚ) > 0.75) ∧
    classify_credibility longText 0 0.9 emptySignals =
      (if calculate_pattern_score emptySignals > 0.7 then "FAKE"
       else "MISLEADING") :=
  ⟨⟨Or.inl rfl, by norm_num, by norm_num, by decide, rfl, by norm_num⟩,
   ((claim_C1 longText 0 0.9 emptySignals (Or.inl rfl) (by norm_num)
      (by norm_num)).2.2 (by decide)).1 rfl (by norm_num)⟩

/-- C2: on empty, non-string, or short (stripped length below 50) input,
`analyze` returns the fixed degraded dictionary — UNVERIFIED, score 0,
High Risk, confidence 0, fixed placeholder text and indicator — for
every possible behaviour of the collaborators (the result does not
depend on the classifier, vectorizer or pattern detector, which models
that they are never invoked). -/
theorem claim_C2 :
    (∀ collab : Collaborators, analyze collab Option.none = degraded_no_text) ∧
    (∀ (collab : Collaborators) (s : String), (pyStrip s).length < 50 →
      analyze collab (Option.some s) =
        if s = "" then degraded_no_text else degraded_short_text) ∧
    degraded_no_text.classification = "UNVERIFIED" ∧
    degraded_no_text.credibility_score = 0 ∧
    degraded_no_text.risk_level = "High Risk" ∧
    degraded_no_text.confidence = 0 ∧
    degraded_short_text.classification = "UNVERIFIED" ∧
    degraded_short_text.credibility_score = 0 ∧
    degraded_short_text.risk_level = "High Risk" ∧
    degraded_short_text.confidence = 0 := by
  refine ⟨fun collab => rfl, ?_, rfl, rfl, rfl, rfl, rfl, rfl, rfl, rfl⟩
  intro collab s hs
  by_cases he : s = ""
  · simp only [analyze, if_pos he, if_pos hs]
  · simp only [analyze, if_neg he, if_pos hs]

/-- Collaborators with fixed trivial behaviour, used as witnesses. -/
def sampleCollab : Collaborators where
  predict := fun _ => 0
  confidence := fun _ => 0
  detect_patterns := fun _ => {}
  analyze_emotional_tone := fun _ _ => ""
  identify_suspicious_claims := fun _ => []

theorem claim_C2_witness :
    (pyStrip "hi").length < 50 ∧
    analyze sampleCollab (Option.some "hi") =
      (if ("hi" : String) = "" then degraded_no_text
       else degraded_short_text) :=
  ⟨by decide, claim_C2.2.1 sampleCollab "hi" (by decide)⟩

/-- Membership of a pattern mapping in the data-model domain: count
signals (and their defaults) are non-negative and ratio signals lie in
[0, 1]. -/
def PatternSignals.InDomain (p : PatternSignals) : Prop :=
  0 ≤ p.sensational_phrases.getD 0 ∧
  0 ≤ p.vague_sources.getD 0 ∧
  0 ≤ p.conspiracy_framing.getD 0 ∧
  0 ≤ p.emotional_manipulation.getD 0 ∧
  0 ≤ p.extreme_adjectives.getD 0 ∧
  0 ≤ p.clickbait.getD 0 ∧
  0 ≤ p.excessive_caps.getD 0 ∧ p.excessive_caps.getD 0 ≤ 1 ∧
  0 ≤ p.one_sided.getD 0 ∧ p.one_sided.getD 0 ≤ 1 ∧
  0 ≤ p.no_evidence.getD 0 ∧ p.no_evidence.getD 0 ≤ 1

lemma sum_map_sq_sub (l : List ℚ) (m : ℚ) :
    (l.map (fun v => (v - m) ^ 2)).sum =
      (l.map (fun v => v ^ 2)).sum - 2 * m * l.sum + l.length * m ^ 2 := by
  induction l with
  | nil => simp
  | cons x xs ih =>
    simp only [List.map_cons, List.sum_cons, List.length_cons, ih]
    push_cast
    ring

lemma sum_sq_le_sum (l : List ℚ) (h : ∀ x ∈ l, 0 ≤ x ∧ x ≤ 1) :
    (l.map (fun v => v ^ 2)).sum ≤ l.sum := by
  induction l with
  | nil => simp
  | cons x xs ih =>
    simp only [List.map_cons, List.sum_cons]
    have hx := h x (List.mem_cons_self x xs)
    have hxs := ih (fun y hy => h y (List.mem_cons_of_mem x hy))
    nlinarith [hx.1, hx.2]

lemma variance_le_quarter (l : List ℚ) (hl : l ≠ [])
    (h : ∀ x ∈ l, 0 ≤ x ∧ x ≤ 1) :
    (l.map (fun v => (v - l.sum / (l.length : ℚ)) ^ 2)).sum /
      (l.length : ℚ) ≤ 1/4 := by
  have hn : (0 : ℚ) < (l.length : ℚ) := by
    have hp := List.length_pos.mpr hl
    exact_mod_cast hp
  have hid := sum_map_sq_sub l (l.sum / (l.length : ℚ))
  have hsq := sum_sq_le_sum l h
  rw [hid, div_le_iff hn]
  set n := (l.length : ℚ) with hn_def
  set m := l.sum / n with hm
  set Q := (l.map (fun v => v ^ 2)).sum with hQ
  have hS : l.sum = n * m := by
    rw [hm]
    field_simp
  rw [hS] at hsq ⊢
  nlinarith [mul_nonneg (le_of_lt hn) (sq_nonneg (m - 1/2)), hsq]

lemma pattern_variance_nonneg (p : PatternSignals) :
    0 ≤ pattern_variance p := by
  unfold pattern_variance
  apply div_nonneg
  · apply List.sum_nonneg
    intro x hx
    obtain ⟨v, -, rfl⟩ := List.mem_map.mp hx
    positivity
  · positivity

/-- C9: for every in-domain pattern mapping, the population variance of
the nine normalized values is at most 1/4, so the clamp
`min 1 (variance * 2)` is unreachable (it equals `variance * 2`), the
pattern consistency computed in `analyze` lies in [1/2, 1], and the
confidence returned by `calculate_confidence` is at least 20 for every
non-negative model confidence, including 0. -/
theorem claim_C9 (p : PatternSignals) (h : p.InDomain) :
    pattern_variance p ≤ 1/4 ∧
    min 1 (pattern_variance p * 2) = pattern_variance p * 2 ∧
    1/2 ≤ pattern_consistency p ∧ pattern_consistency p ≤ 1 ∧
    (∀ mc : ℚ, 0 ≤ mc → 20 ≤ calculate_confidence mc (pattern_consistency p)) := by
  obtain ⟨h1, h2, h3, h4, h5, h6, h7, h8, h9, h10, h11, h12⟩ := h
  have hmem : ∀ x ∈ normalized_values p, 0 ≤ x ∧ x ≤ 1 := by
    intro x hx
    simp only [normalized_values, pattern_values, List.mem_map,
      List.mem_cons, List.not_mem_nil, or_false] at hx
    obtain ⟨v, hv, rfl⟩ := hx
    refine ⟨le_min (by norm_num) ?_, min_le_left _ _⟩
    rcases hv with rfl | rfl | rfl | rfl | rfl | rfl | rfl | rfl | rfl
    · exact div_nonneg h1 (by norm_num)
    · exact h7
    · exact div_nonneg h2 (by norm_num)
    · exact div_nonneg h3 (by norm_num)
    · exact div_nonneg h4 (by norm_num)
    · exact h9
    · exact h11
    · exact div_nonneg h5 (by norm_num)
    · exact div_nonneg h6 (by norm_num)
  have hlen : normalized_values p ≠ [] := by
    simp [normalized_values, pattern_values]
  have hvar : pattern_variance p ≤ 1/4 := by
    have hv := variance_le_quarter (normalized_values p) hlen hmem
    simp only [pattern_variance, pattern_mean]
    exact hv
  have hvnn := pattern_variance_nonneg p
  have hmin : min 1 (pattern_variance p * 2) = pattern_variance p * 2 :=
    min_eq_right (by linarith)
  have hpc1 : 1/2 ≤ pattern_consistency p := by
    unfold pattern_consistency
    rw [hmin]
    linarith
  have hpc2 : pattern_consistency p ≤ 1 := by
    unfold pattern_consistency
    rw [hmin]
    linarith
  refine ⟨hvar, hmin, hpc1, hpc2, ?_⟩
  intro mc hmc
  have harg : ((20 : ℤ) : ℚ) ≤
      (mc * 0.6 + pattern_consistency p * 0.4) * 100 := by
    push_cast
    nlinarith [hpc1, hmc]
  exact le_pyRound 20 _ harg

theorem claim_C9_witness :
    PatternSignals.InDomain emptySignals ∧
    20 ≤ calculate_confidence 0 (pattern_consistency emptySignals) :=
  ⟨by norm_num [PatternSignals.InDomain, emptySignals],
   (claim_C9 emptySignals
      (by norm_num [PatternSignals.InDomain, emptySignals])).2.2.2.2 0
     le_rfl⟩

/-- A pattern mapping outside the data-model domain: the ratio signal
`one_sided` holds 20 instead of a value in [0, 1].  Ratio signals pass
through `calculate_pattern_score` unclamped, so this input drives the
score above 1. -/
def c5OutOfDomain : PatternSignals := { one_sided := Option.some 20 }

/-- C5 (counterexample): without restricting the signals to their stated
domains the range invariants fail — at `one_sided = 20` the pattern
score is 2 > 1, and at `model_confidence = 2` the confidence is
120 > 100.  (The credibility score really is clamped for all inputs; see
the amended theorem.) -/
theorem claim_C5_counterexample :
    1 < calculate_pattern_score c5OutOfDomain ∧
    100 < calculate_confidence 2 0 := by
  constructor
  · norm_num [calculate_pattern_score, c5OutOfDomain, min_def]
  · norm_num [calculate_confidence, pyRound]

/-- C5 (amended): `calculate_credibility_score` is in [0,100] for all
inputs (the clamp guarantees it); `calculate_pattern_score` is in [0,1]
for every pattern mapping in the data-model domain; and
`calculate_confidence` is in [0,100] whenever both arguments lie in
[0,1]. -/
theorem claim_C5_amended :
    (∀ (mc : ℚ) (mp : ℤ) (ps : ℚ),
      0 ≤ calculate_credibility_score mc mp ps ∧
      calculate_credibility_score mc mp ps ≤ 100) ∧
    (∀ p : PatternSignals, p.InDomain →
      0 ≤ calculate_pattern_score p ∧ calculate_pattern_score p ≤ 1) ∧
    (∀ mc pc : ℚ, 0 ≤ mc → mc ≤ 1 → 0 ≤ pc → pc ≤ 1 →
      0 ≤ calculate_confidence mc pc ∧ calculate_confidence mc pc ≤ 100) := by
  refine ⟨?_, ?_, ?_⟩
  · intro mc mp ps
    exact ⟨pyRound_clamp_nonneg _, pyRound_clamp_le _⟩
  · intro p hp
    obtain ⟨h1, h2, h3, h4, h5, h6, h7, h8, h9, h10, h11, h12⟩ := hp
    have b1 : 0 ≤ min 1 (p.sensational_phrases.getD 0 / 5) ∧
        min 1 (p.sensational_phrases.getD 0 / 5) ≤ 1 :=
      ⟨le_min (by norm_num) (div_nonneg h1 (by norm_num)), min_le_left _ _⟩
    have b2 : 0 ≤ min 1 (p.vague_sources.getD 0 / 3) ∧
        min 1 (p.vague_sources.getD 0 / 3) ≤ 1 :=
      ⟨le_min (by norm_num) (div_nonneg h2 (by norm_num)), min_le_left _ _⟩
    have b3 : 0 ≤ min 1 (p.conspiracy_framing.getD 0 / 2) ∧
        min 1 (p.conspiracy_framing.getD 0 / 2) ≤ 1 :=
      ⟨le_min (by norm_num) (div_nonneg h3 (by norm_num)), min_le_left _ _⟩
    have b4 : 0 ≤ min 1 (p.emotional_manipulation.getD 0 / 4) ∧
        min 1 (p.emotional_manipulation.getD 0 / 4) ≤ 1 :=
      ⟨le_min (by norm_num) (div_nonneg h4 (by norm_num)), min_le_left _ _⟩
    have b5 : 0 ≤ min 1 (p.extreme_adjectives.getD 0 / 6) ∧
        min 1 (p.extreme_adjectives.getD 0 / 6) ≤ 1 :=
      ⟨le_min (by norm_num) (div_nonneg h5 (by norm_num)), min_le_left _ _⟩
    have b6 : 0 ≤ min 1 (p.clickbait.getD 0 / 2) ∧
        min 1 (p.clickbait.getD 0 / 2) ≤ 1 :=
      ⟨le_min (by norm_num) (div_nonneg h6 (by norm_num)), min_le_left _ _⟩
    simp only [calculate_pattern_score]
    constructor
    · linarith [b1.1, b2.1, b3.1, b4.1, b5.1, b6.1]
    · linarith [b1.2, b2.2, b3.2, b4.2, b5.2, b6.2]
  · intro mc pc hmc0 hmc1 hpc0 hpc1
    constructor
    · apply le_pyRound 0
      push_cast
      nlinarith
    · apply pyRound_le 100
      push_cast
      nlinarith

theorem claim_C5_witness :
    PatternSignals.InDomain emptySignals ∧
    (0 ≤ calculate_credibility_score 0.9 1 0.1 ∧
      calculate_credibility_score 0.9 1 0.1 ≤ 100) ∧
    (0 ≤ calculate_pattern_score emptySignals ∧
      calculate_pattern_score emptySignals ≤ 1) ∧
    ((0 : ℚ) ≤ 0.5 ∧ (0.5 : ℚ) ≤ 1) ∧
    (0 ≤ calculate_confidence 0.5 0.5 ∧
      calculate_confidence 0.5 0.5 ≤ 100) :=
  ⟨by norm_num [PatternSignals.InDomain, emptySignals],
   claim_C5_amended.1 0.9 1 0.1,
   claim_C5_amended.2.1 emptySignals
     (by norm_num [PatternSignals.InDomain, emptySignals]),
   by norm_num,
   claim_C5_amended.2.2 0.5 0.5 (by norm_num) (by norm_num) (by norm_num)
     (by norm_num)⟩

/-- Discriminates the two constructors of the validation result. -/
def resultOk : Except ValidationError (List (String × PyVal)) → Bool
  | .ok _ => true
  | .error _ => false

/-- All ten required fields are present in the dictionary. -/
def presentB (d : List (String × PyVal)) : Bool :=
  required_fields.all (fun q => (dictGet d q.1).isSome)

/-- Every required field passes its per-field type and value checks. -/
def fieldsOkB (d : List (String × PyVal)) : Bool :=
  required_fields.all
    (fun q => (validateOne q.1 q.2 ((dictGet d q.1).getD PyVal.none)).isNone)

lemma runValidation_isOk (d : List (String × PyVal))
    (fields : List (String × PyType)) :
    resultOk (runValidation d fields) =
      fields.all
        (fun q => (validateOne q.1 q.2 ((dictGet d q.1).getD PyVal.none)).isNone) := by
  induction fields with
  | nil => rfl
  | cons q rest ih =>
    obtain ⟨f, t⟩ := q
    simp only [runValidation, List.all_cons]
    cases hv : validateOne f t ((dictGet d f).getD PyVal.none) with
    | some e => simp [hv, resultOk]
    | none =>
      cases hr : runValidation d rest with
      | error e =>
        rw [hr] at ih
        simp [hv, hr, ← ih, resultOk]
      | ok out =>
        rw [hr] at ih
        simp [hv, hr, ← ih, resultOk]

lemma runValidation_ok_eq (d : List (String × PyVal))
    (fields : List (String × PyType)) (out : List (String × PyVal))
    (h : runValidation d fields = .ok out) :
    out = fields.map (fun q => (q.1, (dictGet d q.1).getD PyVal.none)) := by
  induction fields generalizing out with
  | nil =>
    simp only [runValidation] at h
    cases h
    rfl
  | cons q rest ih =>
    obtain ⟨f, t⟩ := q
    simp only [runValidation] at h
    cases hv : validateOne f t ((dictGet d f).getD PyVal.none) with
    | some e =>
      rw [hv] at h
      cases h
    | none =>
      rw [hv] at h
      cases hr : runValidation d rest with
      | error e =>
        rw [hr] at h
        cases h
      | ok out2 =>
        rw [hr] at h
        cases h
        have h2 := ih out2 hr
        simp [List.map_cons, h2]

lemma missing_eq_nil_iff (d : List (String × PyVal)) :
    required_fields.filterMap
        (fun p => if (dictGet d p.1).isNone then Option.some p.1
          else Option.none) = [] ↔
      ∀ q ∈ required_fields, (dictGet d q.1).isSome = true := by
  rw [List.filterMap_eq_nil_iff]
  refine ⟨fun h q hq => ?_, fun h q hq => ?_⟩
  · have hh := h q hq
    cases ho : dictGet d q.1 with
    | none => rw [ho] at hh; simp at hh
    | some v => rfl
  · have hh := h q hq
    cases ho : dictGet d q.1 with
    | none => rw [ho] at hh; simp at hh
    | some v => simp

lemma format_isOk (d : List (String × PyVal)) :
    resultOk (format_json_output d) = (presentB d && fieldsOkB d) := by
  unfold format_json_output
  by_cases hm : required_fields.filterMap
      (fun p => if (dictGet d p.1).isNone then Option.some p.1
        else Option.none) = []
  · rw [if_neg (by simp [hm])]
    have hp : presentB d = true :=
      List.all_eq_true.mpr (fun q hq => (missing_eq_nil_iff d).mp hm q hq)
    rw [runValidation_isOk, hp, Bool.true_and]
    rfl
  · rw [if_pos (by simpa using hm)]
    have hp : presentB d = false := by
      by_contra hc
      have ht : presentB d = true := by
        cases hb : presentB d
        · exact absurd hb hc
        · rfl
      exact hm ((missing_eq_nil_iff d).mpr
        (fun q hq => List.all_eq_true.mp ht q hq))
    rw [hp, Bool.false_and]
    rfl

/-- Claim-side validity of the `classification` field: present, a
string, and one of the four labels. -/
def classificationOk : Option PyVal → Bool
  | Option.some (.str s) =>
    decide (s = "REAL" ∨ s = "FAKE" ∨ s = "MISLEADING" ∨ s = "UNVERIFIED")
  | _ => false

/-- Claim-side validity of an integer score field: present, an int, and
in [0, 100]. -/
def scoreFieldOk : Option PyVal → Bool
  | Option.some (.int n) => decide (0 ≤ n ∧ n ≤ 100)
  | _ => false

/-- Claim-side validity of the `risk_level` field: present, a string,
and one of the three tiers. -/
def riskLevelOk : Option PyVal → Bool
  | Option.some (.str s) =>
    decide (s = "Low Risk" ∨ s = "Medium Risk" ∨ s = "High Risk")
  | _ => false

/-- Claim-side validity of a plain string field: present and a string. -/
def strFieldOk : Option PyVal → Bool
  | Option.some (.str _) => true
  | _ => false

/-- Claim-side validity of a list field: present, a list, and containing
only strings. -/
def strListFieldOk : Option PyVal → Bool
  | Option.some (.list xs) => xs.all pyIsStr
  | _ => false

/-- The validity conditions of claim C6, written from the claim: all ten
required fields present with the right types, classification and
risk_level drawn from their allowed sets, both scores in [0,100], and
the two list fields containing only strings. -/
def claimValid (d : List (String × PyVal)) : Bool :=
  classificationOk (dictGet d "classification") &&
  scoreFieldOk (dictGet d "credibility_score") &&
  riskLevelOk (dictGet d "risk_level") &&
  scoreFieldOk (dictGet d "confidence") &&
  strFieldOk (dictGet d "analysis_summary") &&
  strListFieldOk (dictGet d "key_indicators") &&
  strFieldOk (dictGet d "emotional_tone") &&
  strListFieldOk (dictGet d "suspicious_claims") &&
  strFieldOk (dictGet d "recommended_action") &&
  strFieldOk (dictGet d "explanation")

lemma clause_classification (o : Option PyVal) :
    (o.isSome &&
      (validateOne "classification" PyType.str (o.getD PyVal.none)).isNone) =
      classificationOk o := by
  cases o with
  | none => rfl
  | some v =>
    cases v with
    | str s =>
      show (if s = "REAL" ∨ s = "FAKE" ∨ s = "MISLEADING" ∨ s = "UNVERIFIED"
          then (Option.none : Option ValidationError)
          else Option.some (.invalidClassification s)).isNone =
        classificationOk (Option.some (.str s))
      by_cases h : s = "REAL" ∨ s = "FAKE" ∨ s = "MISLEADING" ∨ s = "UNVERIFIED"
      · simp [h, classificationOk]
      · simp [h, classificationOk]
    | int n => rfl
    | float q => rfl
    | list xs => rfl
    | none => rfl

lemma clause_score (f : String) (o : Option PyVal)
    (hf : f = "credibility_score" ∨ f = "confidence") :
    (o.isSome && (validateOne f PyType.int (o.getD PyVal.none)).isNone) =
      scoreFieldOk o := by
  rcases hf with rfl | rfl <;>
  · cases o with
    | none => rfl
    | some v =>
      cases v with
      | int n =>
        by_cases h : 0 ≤ n ∧ n ≤ 100
        · simp [validateOne, typeMatches, h, scoreFieldOk]
        · simp [validateOne, typeMatches, h, scoreFieldOk]
      | str s => rfl
      | float q => rfl
      | list xs => rfl
      | none => rfl

lemma clause_risk (o : Option PyVal) :
    (o.isSome &&
      (validateOne "risk_level" PyType.str (o.getD PyVal.none)).isNone) =
      riskLevelOk o := by
  cases o with
  | none => rfl
  | some v =>
    cases v with
    | str s =>
      by_cases h : s = "Low Risk" ∨ s = "Medium Risk" ∨ s = "High Risk"
      · simp [validateOne, typeMatches, h, riskLevelOk]
      · simp [validateOne, typeMatches, h, riskLevelOk]
    | int n => rfl
    | float q => rfl
    | list xs => rfl
    | none => rfl

lemma clause_strList (f : String) (o : Option PyVal)
    (hf : f = "key_indicators" ∨ f = "suspicious_claims") :
    (o.isSome && (validateOne f PyType.list (o.getD PyVal.none)).isNone) =
      strListFieldOk o := by
  rcases hf with rfl | rfl <;>
  · cases o with
    | none => rfl
    | some v =>
      cases v with
      | list xs =>
        by_cases h : xs.all pyIsStr
        · simp [validateOne, typeMatches, h, strListFieldOk]
        · simp [validateOne, typeMatches, h, strListFieldOk]
      | str s => rfl
      | int n => rfl
      | float q => rfl
      | none => rfl

lemma clause_str (f : String) (o : Option PyVal)
    (hf : f = "analysis_summary" ∨ f = "emotional_tone" ∨
      f = "recommended_action" ∨ f = "explanation") :
    (o.isSome && (validateOne f PyType.str (o.getD PyVal.none)).isNone) =
      strFieldOk o := by
  rcases hf with rfl | rfl | rfl | rfl <;>
  · cases o with
    | none => rfl
    | some v => cases v <;> rfl

lemma isSome_getD (o : Option PyVal) (h : o.isSome = true) :
    o = Option.some (o.getD PyVal.none) := by
  cases o with
  | none => simp at h
  | some v => rfl

lemma claimValid_map (g : String → PyVal) :
    claimValid (required_fields.map (fun q => (q.1, g q.1))) =
      (classificationOk (Option.some (g "classification")) &&
       scoreFieldOk (Option.some (g "credibility_score")) &&
       riskLevelOk (Option.some (g "risk_level")) &&
       scoreFieldOk (Option.some (g "confidence")) &&
       strFieldOk (Option.some (g "analysis_summary")) &&
       strListFieldOk (Option.some (g "key_indicators")) &&
       strFieldOk (Option.some (g "emotional_tone")) &&
       strListFieldOk (Option.some (g "suspicious_claims")) &&
       strFieldOk (Option.some (g "recommended_action")) &&
       strFieldOk (Option.some (g "explanation"))) := rfl

set_option maxHeartbeats 1000000 in
/-- C6: `format_json_output` succeeds exactly on inputs satisfying the
ten-field validity contract of the claim (each constructor of
`ValidationError` names the offending field, classification value,
out-of-range value or risk value it reports), and any result it does
return satisfies that same contract, so a malformed result is never
returned. -/
theorem claim_C6 (d : List (String × PyVal)) :
    (resultOk (format_json_output d) = true ↔ claimValid d = true) ∧
    (∀ out, format_json_output d = .ok out → claimValid out = true) := by
  have hiff : resultOk (format_json_output d) = true ↔ claimValid d = true := by
    rw [format_isOk]
    have e1 : ((dictGet d "classification").isSome = true ∧
        (validateOne "classification" PyType.str
          ((dictGet d "classification").getD PyVal.none)).isNone = true) ↔
        classificationOk (dictGet d "classification") = true := by
      rw [← clause_classification, Bool.and_eq_true]
    have e2 : ((dictGet d "credibility_score").isSome = true ∧
        (validateOne "credibility_score" PyType.int
          ((dictGet d "credibility_score").getD PyVal.none)).isNone = true) ↔
        scoreFieldOk (dictGet d "credibility_score") = true := by
      rw [← clause_score "credibility_score" _ (Or.inl rfl), Bool.and_eq_true]
    have e3 : ((dictGet d "risk_level").isSome = true ∧
        (validateOne "risk_level" PyType.str
          ((dictGet d "risk_level").getD PyVal.none)).isNone = true) ↔
        riskLevelOk (dictGet d "risk_level") = true := by
      rw [← clause_risk, Bool.and_eq_true]
    have e4 : ((dictGet d "confidence").isSome = true ∧
        (validateOne "confidence" PyType.int
          ((dictGet d "confidence").getD PyVal.none)).isNone = true) ↔
        scoreFieldOk (dictGet d "confidence") = true := by
      rw [← clause_score "confidence" _ (Or.inr rfl), Bool.and_eq_true]
    have e5 : ((dictGet d "analysis_summary").isSome = true ∧
        (validateOne "analysis_summary" PyType.str
          ((dictGet d "analysis_summary").getD PyVal.none)).isNone = true) ↔
        strFieldOk (dictGet d "analysis_summary") = true := by
      rw [← clause_str "analysis_summary" _ (Or.inl rfl), Bool.and_eq_true]
    have e6 : ((dictGet d "key_indicators").isSome = true ∧
        (validateOne "key_indicators" PyType.list
          ((dictGet d "key_indicators").getD PyVal.none)).isNone = true) ↔
        strListFieldOk (dictGet d "key_indicators") = true := by
      rw [← clause_strList "key_indicators" _ (Or.inl rfl), Bool.and_eq_true]
    have e7 : ((dictGet d "emotional_tone").isSome = true ∧
        (validateOne "emotional_tone" PyType.str
          ((dictGet d "emotional_tone").getD PyVal.none)).isNone = true) ↔
        strFieldOk (dictGet d "emotional_tone") = true := by
      rw [← clause_str "emotional_tone" _ (Or.inr (Or.inl rfl)),
        Bool.and_eq_true]
    have e8 : ((dictGet d "suspicious_claims").isSome = true ∧
        (validateOne "suspicious_claims" PyType.list
          ((dictGet d "suspicious_claims").getD PyVal.none)).isNone = true) ↔
        strListFieldOk (dictGet d "suspicious_claims") = true := by
      rw [← clause_strList "suspicious_claims" _ (Or.inr rfl), Bool.and_eq_true]
    have e9 : ((dictGet d "recommended_action").isSome = true ∧
        (validateOne "recommended_action" PyType.str
          ((dictGet d "recommended_action").getD PyVal.none)).isNone = true) ↔
        strFieldOk (dictGet d "recommended_action") = true := by
      rw [← clause_str "recommended_action" _ (Or.inr (Or.inr (Or.inl rfl))),
        Bool.and_eq_true]
    have e10 : ((dictGet d "explanation").isSome = true ∧
        (validateOne "explanation" PyType.str
          ((dictGet d "explanation").getD PyVal.none)).isNone = true) ↔
        strFieldOk (dictGet d "explanation") = true := by
      rw [← clause_str "explanation" _ (Or.inr (Or.inr (Or.inr rfl))),
        Bool.and_eq_true]
    simp only [presentB, fieldsOkB, claimValid, required_fields,
      List.all_cons, List.all_nil, Bool.and_true, Bool.and_eq_true, and_assoc]
    constructor
    · rintro ⟨q1, q2, q3, q4, q5, q6, q7, q8, q9, q10,
        w1, w2, w3, w4, w5, w6, w7, w8, w9, w10⟩
      exact ⟨e1.mp ⟨q1, w1⟩, e2.mp ⟨q2, w2⟩, e3.mp ⟨q3, w3⟩,
        e4.mp ⟨q4, w4⟩, e5.mp ⟨q5, w5⟩, e6.mp ⟨q6, w6⟩, e7.mp ⟨q7, w7⟩,
        e8.mp ⟨q8, w8⟩, e9.mp ⟨q9, w9⟩, e10.mp ⟨q10, w10⟩⟩
    · rintro ⟨c1, c2, c3, c4, c5, c6, c7, c8, c9, c10⟩
      obtain ⟨q1, w1⟩ := e1.mpr c1
      obtain ⟨q2, w2⟩ := e2.mpr c2
      obtain ⟨q3, w3⟩ := e3.mpr c3
      obtain ⟨q4, w4⟩ := e4.mpr c4
      obtain ⟨q5, w5⟩ := e5.mpr c5
      obtain ⟨q6, w6⟩ := e6.mpr c6
      obtain ⟨q7, w7⟩ := e7.mpr c7
      obtain ⟨q8, w8⟩ := e8.mpr c8
      obtain ⟨q9, w9⟩ := e9.mpr c9
      obtain ⟨q10, w10⟩ := e10.mpr c10
      exact ⟨q1, q2, q3, q4, q5, q6, q7, q8, q9, q10,
        w1, w2, w3, w4, w5, w6, w7, w8, w9, w10⟩
  refine ⟨hiff, ?_⟩
  intro out h
  have hok : resultOk (format_json_output d) = true := by rw [h]; rfl
  have hcv : claimValid d = true := hiff.mp hok
  have hm : required_fields.filterMap
      (fun p => if (dictGet d p.1).isNone then Option.some p.1
        else Option.none) = [] := by
    by_contra hc
    unfold format_json_output at h
    rw [if_pos (by simpa using hc)] at h
    exact Except.noConfusion h
  have hrun : runValidation d required_fields = .ok out := by
    unfold format_json_output at h
    rwa [if_neg (by simp [hm])] at h
  have hout := runValidation_ok_eq d required_fields out hrun
  have hp := (missing_eq_nil_iff d).mp hm
  have p1 : (dictGet d "classification").isSome = true :=
    hp ("classification", PyType.str) (by simp [required_fields])
  have p2 : (dictGet d "credibility_score").isSome = true :=
    hp ("credibility_score", PyType.int) (by simp [required_fields])
  have p3 : (dictGet d "risk_level").isSome = true :=
    hp ("risk_level", PyType.str) (by simp [required_fields])
  have p4 : (dictGet d "confidence").isSome = true :=
    hp ("confidence", PyType.int) (by simp [required_fields])
  have p5 : (dictGet d "analysis_summary").isSome = true :=
    hp ("analysis_summary", PyType.str) (by simp [required_fields])
  have p6 : (dictGet d "key_indicators").isSome = true :=
    hp ("key_indicators", PyType.list) (by simp [required_fields])
  have p7 : (dictGet d "emotional_tone").isSome = true :=
    hp ("emotional_tone", PyType.str) (by simp [required_fields])
  have p8 : (dictGet d "suspicious_claims").isSome = true :=
    hp ("suspicious_claims", PyType.list) (by simp [required_fields])
  have p9 : (dictGet d "recommended_action").isSome = true :=
    hp ("recommended_action", PyType.str) (by simp [required_fields])
  have p10 : (dictGet d "explanation").isSome = true :=
    hp ("explanation", PyType.str) (by simp [required_fields])
  rw [hout, claimValid_map (fun s => (dictGet d s).getD PyVal.none)]
  unfold claimValid at hcv
  rw [isSome_getD _ p1, isSome_getD _ p2, isSome_getD _ p3, isSome_getD _ p4,
    isSome_getD _ p5, isSome_getD _ p6, isSome_getD _ p7, isSome_getD _ p8,
    isSome_getD _ p9, isSome_getD _ p10] at hcv
  exact hcv

/-- C10: a validated output holds exactly the ten required keys, in the
fixed order, each bound to the input dictionary's value; every other
input key (such as `model_prediction`, `pattern_score` and `patterns`
returned by `analyze`) is dropped. -/
theorem claim_C10 (d : List (String × PyVal)) (out : List (String × PyVal))
    (h : format_json_output d = .ok out) :
    out.map Prod.fst = ["classification", "credibility_score", "risk_level",
      "confidence", "analysis_summary", "key_indicators", "emotional_tone",
      "suspicious_claims", "recommended_action", "explanation"] ∧
    ∀ kv ∈ out, dictGet d kv.1 = Option.some kv.2 := by
  have hm : required_fields.filterMap
      (fun p => if (dictGet d p.1).isNone then Option.some p.1
        else Option.none) = [] := by
    by_contra hc
    unfold format_json_output at h
    rw [if_pos (by simpa using hc)] at h
    exact Except.noConfusion h
  have hrun : runValidation d required_fields = .ok out := by
    unfold format_json_output at h
    rwa [if_neg (by simp [hm])] at h
  have hout := runValidation_ok_eq d required_fields out hrun
  constructor
  · rw [hout]
    rfl
  · intro kv hkv
    rw [hout] at hkv
    obtain ⟨q, hq, rfl⟩ := List.mem_map.mp hkv
    exact isSome_getD _ ((missing_eq_nil_iff d).mp hm q hq)

/-- A complete, valid analysis dictionary as produced by `analyze`,
including the three extra keys that the validator must drop. -/
def sampleAnalysisDict : List (String × PyVal) :=
  [("classification", .str "REAL"),
   ("credibility_score", .int 85),
   ("risk_level", .str "Low Risk"),
   ("confidence", .int 75),
   ("analysis_summary", .str "This article appears credible."),
   ("key_indicators", .list [.str "Balanced language and structure"]),
   ("emotional_tone", .str "Neutral"),
   ("suspicious_claims", .list []),
   ("recommended_action", .str "This content appears credible."),
   ("explanation", .str "The article received a classification of REAL."),
   ("model_prediction", .int 1),
   ("pattern_score", .float 0.1),
   ("patterns", .list [])]

/-- The first ten bindings of `sampleAnalysisDict`: the expected
validator output. -/
def sampleFormattedDict : List (String × PyVal) :=
  [("classification", .str "REAL"),
   ("credibility_score", .int 85),
   ("risk_level", .str "Low Risk"),
   ("confidence", .int 75),
   ("analysis_summary", .str "This article appears credible."),
   ("key_indicators", .list [.str "Balanced language and structure"]),
   ("emotional_tone", .str "Neutral"),
   ("suspicious_claims", .list []),
   ("recommended_action", .str "This content appears credible."),
   ("explanation", .str "The article received a classification of REAL.")]

theorem claim_C6_witness : claimValid sampleFormattedDict = true :=
  (claim_C6 sampleAnalysisDict).2 sampleFormattedDict rfl

theorem claim_C10_witness :
    sampleFormattedDict.map Prod.fst = ["classification",
      "credibility_score", "risk_level", "confidence", "analysis_summary",
      "key_indicators", "emotional_tone", "suspicious_claims",
      "recommended_action", "explanation"] ∧
    ∀ kv ∈ sampleFormattedDict,
      dictGet sampleAnalysisDict kv.1 = Option.some kv.2 :=
  claim_C10 sampleAnalysisDict sampleFormattedDict rfl

end CredibilityAnalyzer
